import Mathlib

/-!
# Verification of the ethproofs API client core

A shallow embedding in Lean 4 of the request/response modelling, builder
validation and dispatch-classification layer of the `ethproofs-api` crate
(`crates/ethproofs-api/src/`), together with theorems checking the
natural-language specification's claims against it.

Conventions of the embedding:
* Rust `u64`/`u16` values are modelled as `Nat` (the code only compares them
  with `0` and with small constants; no wrap-around arithmetic occurs).
* Rust `String` is modelled as Lean `String`; Rust `str::len` (a UTF-8 byte
  count) is modelled by `rustLen` below.
* Fallible Rust code returning `Result` is modelled with `Except`.
* A Rust indexing expression `v[i]`, which panics when out of bounds, is
  modelled by `v[i]?` with the `none` case mapped to a distinguished
  `BuildStop.indexPanic` outcome, so that panic-freedom is a provable
  statement about the model.
-/

set_option maxRecDepth 8000

/-- Rust `str::len`: the length of a string in UTF-8 bytes. -/
def rustLen (s : String) : Nat := s.utf8ByteSize

/-- Rust `str::contains(char)`: whether a string contains a character. -/
def rustContains (s : String) (c : Char) : Bool := s.data.any (fun a => a == c)

/-- Alias for `String`, needed where a Rust enum variant is itself named
`String` and would otherwise shadow the type inside its own declaration. -/
abbrev RustStr := String

/-- A generic JSON value, modelling `serde_json::Value` as far as this crate
produces it (all numbers in this crate's request payloads are `u64`).
Objects keep their fields as an association list. -/
inductive Json where
  | null
  | bool (b : Bool)
  | num (n : Nat)
  | str (s : String)
  | arr (elems : List Json)
  | obj (fields : List (String × Json))

/-- The `Option<Vec<_>>` length with absent treated as 0, modelling the Rust
expression `opt.as_ref().map_or(0, |v| v.len())`. -/
def optVecLen {α : Type} : Option (List α) → Nat
  | none => 0
  | some v => v.length

/-! ## `rpc/common.rs` -/

/-- The `MachineConfiguration` from `rpc/common.rs`. -/
structure MachineConfiguration where
  cpu_model : String
  cpu_cores : Nat
  gpu_models : Option (List String)
  gpu_count : Option (List Nat)
  gpu_memory_gb : Option (List Nat)
  memory_size_gb : List Nat
  memory_count : List Nat
  memory_type : List String
  storage_size_gb : Option Nat
  total_tera_flops : Option Nat
  network_between_machines : Option String
deriving DecidableEq

/-- The `BlockNumber` from `rpc/common.rs`: untagged integer-or-string. -/
inductive BlockNumber where
  | Int (num : Nat)
  | String (s : RustStr)
deriving DecidableEq

/-- The `Display` implementation of `BlockNumber`: the number in decimal, or
the raw string. -/
def BlockNumber.display : BlockNumber → RustStr
  | .Int num => toString num
  | .String s => s

/-- Modelled from the spec: `NumberOrString` is used by `rpc/proofs.rs` but its
definition in `rpc/common.rs` is not present under `src/`. The spec (§3)
describes it as "either an unsigned integer or an opaque string identifier",
which "stringifies to its numeric or raw-string form for inclusion in URLs". -/
inductive NumberOrString where
  | Int (num : Nat)
  | String (s : RustStr)
deriving DecidableEq

/-- Modelled from the spec: the stringification of `NumberOrString` to its
numeric or raw-string form (spec §3). -/
def NumberOrString.display : NumberOrString → RustStr
  | .Int num => toString num
  | .String s => s

/-- Modelled from the spec: `ClusterMachine` is referenced by `rpc/proofs.rs`
but its definition in `rpc/common.rs` is not present under `src/`, and the
spec does not document its fields. No claim depends on its contents, so it is
modelled as an abstract marker with a single anonymous payload. -/
structure ClusterMachine where
  markerId : Nat
deriving DecidableEq

/-- The `CloudInstance` from `rpc/common.rs`. The `hourly_price : f64` field is
modelled by its IEEE-754 bit pattern as a `Nat`; no code under verification
computes with it. -/
structure CloudInstance where
  id : Nat
  provider : String
  instance_name : String
  region : String
  hourly_price : Nat
  cpu_architecture : Option String
  cpu_cores : Nat
  cpu_effective_cores : Option Nat
  cpu_name : Option String
  memory : Nat
  gpu_count : Option Nat
  gpu_architecture : Option String
  gpu_name : Option String
  gpu_memory : Option Nat
  mobo_name : Option String
  disk_name : Option String
  disk_space : Option Nat
  created_at : String
  snapshot_date : Option String
deriving DecidableEq

/-! ## `rpc/clusters.rs`: data types -/

/-- The `CreateClusterRequestError` from `rpc/clusters.rs`. -/
inductive CreateClusterRequestError where
  | MissingField (field : String)
  | InvalidField (field : String) (reason : String)
  | MalformedRequest (reason : String)
deriving DecidableEq

/-- How a run of `CreateClusterRequestBuilder::build` can stop early: with a
returned validation error, or with a Rust index-out-of-bounds panic. -/
inductive BuildStop where
  | err (e : CreateClusterRequestError)
  | indexPanic
deriving DecidableEq

/-- The `ClusterConfiguration` from `rpc/clusters.rs`. -/
structure ClusterConfiguration where
  machine : MachineConfiguration
  machine_count : Nat
  cloud_instance_name : String
  cloud_instance_count : Nat
deriving DecidableEq

/-- The `CreateClusterRequest` from `rpc/clusters.rs`. -/
structure CreateClusterRequest where
  nickname : String
  description : Option String
  zkvm_version_id : Nat
  hardware : Option String
  cycle_type : Option String
  proof_type : Option String
  configuration : List ClusterConfiguration
deriving DecidableEq

/-- The `CreateClusterRequestBuilder` from `rpc/clusters.rs`: every field starts
unset (`Default`), setters fill them in. -/
structure CreateClusterRequestBuilder where
  nickname : Option String := none
  description : Option String := none
  zkvm_version_id : Option Nat := none
  hardware : Option String := none
  cycle_type : Option String := none
  proof_type : Option String := none
  configuration : Option (List ClusterConfiguration) := none
deriving DecidableEq

/-! ## `rpc/clusters.rs`: `CreateClusterRequestBuilder::build`

The body of `build` (lines 206-399) is decomposed into one Lean definition per
contiguous run of checks, sequenced by `seqCheck`, preserving the exact order
and the exact error values of the Rust source. -/

/-- Sequencing of two validation steps: the second runs only when the first
succeeded (the Rust `return Err(...)` early-exit pattern). -/
def seqCheck (a b : Except BuildStop Unit) : Except BuildStop Unit :=
  match a with
  | .ok _ => b
  | .error e => .error e

/-- The checks at the head of the per-configuration loop (lines 269-296):
`machine_count`, `cloud_instance_count`, `cpu_model`, `cpu_cores`. -/
def checkConfigHeader (config : ClusterConfiguration) : Except BuildStop Unit :=
  if config.machine_count = 0 then
    .error (.err (.InvalidField "machine_count" "must be greater than 0"))
  else if config.cloud_instance_count = 0 then
    .error (.err (.InvalidField "cloud_instance_count" "must be greater than 0"))
  else if rustLen config.machine.cpu_model > 200 then
    .error (.err (.InvalidField "cpu_model" "must be at most 200 characters"))
  else if config.machine.cpu_cores = 0 then
    .error (.err (.InvalidField "cpu_cores" "must be greater than 0"))
  else
    .ok ()

/-- Line 315: `machine.gpu_count.as_ref().is_some_and(|v| v[i] == 0)`; the
indexing `v[i]` panics when out of bounds. -/
def gpuCountCheck (machine : MachineConfiguration) (i : Nat) : Except BuildStop Unit :=
  match machine.gpu_count with
  | none => .ok ()
  | some v =>
    match v[i]? with
    | none => .error .indexPanic
    | some x =>
      if x = 0 then
        .error (.err (.InvalidField ("gpu_count[" ++ toString i ++ "]") "must be greater than 0"))
      else
        .ok ()

/-- Line 321: `machine.gpu_memory_gb.as_ref().is_some_and(|v| v[i] == 0)`. -/
def gpuMemoryCheck (machine : MachineConfiguration) (i : Nat) : Except BuildStop Unit :=
  match machine.gpu_memory_gb with
  | none => .ok ()
  | some v =>
    match v[i]? with
    | none => .error .indexPanic
    | some x =>
      if x = 0 then
        .error (.err (.InvalidField ("gpu_memory_gb[" ++ toString i ++ "]") "must be greater than 0"))
      else
        .ok ()

/-- The loop over `gpu_models.iter().enumerate()` (lines 307-328), carrying
the absolute index `i`. -/
def checkGpuElems (machine : MachineConfiguration) : Nat → List String → Except BuildStop Unit
  | _, [] => .ok ()
  | i, model :: rest =>
    if rustLen model > 200 then
      .error (.err (.InvalidField ("gpu_models[" ++ toString i ++ "]") "must be at most 200 characters"))
    else
      seqCheck (gpuCountCheck machine i)
        (seqCheck (gpuMemoryCheck machine i) (checkGpuElems machine (i + 1) rest))

/-- GPU validation (lines 298-328): the three GPU arrays must have the same
length (absent treated as 0), then each present model is checked element-wise. -/
def checkGpu (machine : MachineConfiguration) : Except BuildStop Unit :=
  if optVecLen machine.gpu_count ≠ optVecLen machine.gpu_models
      ∨ optVecLen machine.gpu_memory_gb ≠ optVecLen machine.gpu_models then
    .error (.err (.MalformedRequest "gpu_models, gpu_count, and gpu_memory_gb must have the same length"))
  else
    match machine.gpu_models with
    | none => .ok ()
    | some gpu_models => checkGpuElems machine 0 gpu_models

/-- Line 349: `machine.memory_count[i]` (panicking indexing). -/
def memCountCheck (machine : MachineConfiguration) (i : Nat) : Except BuildStop Unit :=
  match machine.memory_count[i]? with
  | none => .error .indexPanic
  | some c =>
    if c = 0 then
      .error (.err (.InvalidField ("memory_count[" ++ toString i ++ "]") "must be greater than 0"))
    else
      .ok ()

/-- Line 355: `machine.memory_type[i]` (panicking indexing). -/
def memTypeCheck (machine : MachineConfiguration) (i : Nat) : Except BuildStop Unit :=
  match machine.memory_type[i]? with
  | none => .error .indexPanic
  | some t =>
    if rustLen t > 200 then
      .error (.err (.InvalidField ("memory_type[" ++ toString i ++ "]") "must be at most 200 characters"))
    else
      .ok ()

/-- The loop over `memory_size_gb.iter().enumerate()` (lines 342-361). -/
def checkMemElems (machine : MachineConfiguration) : Nat → List Nat → Except BuildStop Unit
  | _, [] => .ok ()
  | i, size :: rest =>
    if size = 0 then
      .error (.err (.InvalidField ("memory_size_gb[" ++ toString i ++ "]") "must be greater than 0"))
    else
      seqCheck (memCountCheck machine i)
        (seqCheck (memTypeCheck machine i) (checkMemElems machine (i + 1) rest))

/-- Memory validation (lines 330-361): the three memory arrays must have equal
lengths, the common length must be non-zero, then each entry is checked. -/
def checkMem (machine : MachineConfiguration) : Except BuildStop Unit :=
  if machine.memory_count.length ≠ machine.memory_size_gb.length
      ∨ machine.memory_type.length ≠ machine.memory_size_gb.length then
    .error (.err (.MalformedRequest "memory_size_gb, memory_count, and memory_type must have the same length"))
  else if machine.memory_size_gb.length = 0 then
    .error (.err (.MalformedRequest "memory_size_gb, memory_count, and memory_type must not be empty"))
  else
    checkMemElems machine 0 machine.memory_size_gb

/-- Validation of the optional machine fields (lines 363-385):
`storage_size_gb`, `total_tera_flops`, `network_between_machines`. -/
def checkOptFields (machine : MachineConfiguration) : Except BuildStop Unit :=
  if machine.storage_size_gb.any (fun s => s = 0) then
    .error (.err (.InvalidField "storage_size_gb" "must be greater than 0"))
  else if machine.total_tera_flops.any (fun f => f = 0) then
    .error (.err (.InvalidField "total_tera_flops" "must be greater than 0"))
  else if machine.network_between_machines.any (fun n => rustLen n > 500) then
    .error (.err (.InvalidField "network_between_machines" "must be at most 500 characters"))
  else
    .ok ()

/-- One iteration of the `for config in &configuration` loop (lines 268-386). -/
def checkConfig (config : ClusterConfiguration) : Except BuildStop Unit :=
  seqCheck (checkConfigHeader config)
    (seqCheck (checkGpu config.machine)
      (seqCheck (checkMem config.machine) (checkOptFields config.machine)))

/-- The whole `for config in &configuration` loop. -/
def checkConfigs : List ClusterConfiguration → Except BuildStop Unit
  | [] => .ok ()
  | config :: rest => seqCheck (checkConfig config) (checkConfigs rest)

/-- The `CreateClusterRequestBuilder::build` (lines 206-399), check for check in
source order. -/
def CreateClusterRequestBuilder.build (b : CreateClusterRequestBuilder) :
    Except BuildStop CreateClusterRequest :=
  match b.nickname with
  | none => .error (.err (.MissingField "nickname"))
  | some nickname =>
    if rustLen nickname > 50 then
      .error (.err (.InvalidField "nickname" "must be at most 50 characters"))
    else if b.description.any (fun d => rustLen d > 200) then
      .error (.err (.InvalidField "description" "must be at most 200 characters"))
    else
      match b.zkvm_version_id with
      | none => .error (.err (.MissingField "zkvm_version_id"))
      | some zkvm_version_id =>
        if zkvm_version_id = 0 then
          .error (.err (.InvalidField "zkvm_version_id" "must be greater than 0"))
        else if b.hardware.any (fun h => rustLen h > 200) then
          .error (.err (.InvalidField "hardware" "must be between 1 and 200 characters"))
        else if b.cycle_type.any String.isEmpty then
          .error (.err (.InvalidField "cycle_type" "cycle_type is required"))
        else if b.proof_type.any String.isEmpty then
          .error (.err (.InvalidField "proof_type" "proof_type is required"))
        else
          match b.configuration with
          | none => .error (.err (.MissingField "configuration"))
          | some configuration =>
            if configuration.isEmpty then
              .error (.err (.InvalidField "configuration" "configuration must not be empty"))
            else
              match checkConfigs configuration with
              | .error e => .error e
              | .ok _ =>
                .ok { nickname := nickname
                      description := b.description
                      zkvm_version_id := zkvm_version_id
                      hardware := b.hardware
                      cycle_type := b.cycle_type
                      proof_type := b.proof_type
                      configuration := configuration }

/-- Whether a build run stopped with an index-out-of-bounds panic. -/
def isIndexPanic {α : Type} : Except BuildStop α → Bool
  | .error .indexPanic => true
  | _ => false

/-! ## Remaining request/response payload types -/

/-- The `CreateClusterResponse` from `rpc/clusters.rs`. -/
structure CreateClusterResponse where
  id : Nat
deriving DecidableEq

/-- The `ListClustersRequest` from `rpc/clusters.rs` (a unit struct). -/
structure ListClustersRequest where
deriving DecidableEq

/-- The `MachineData` from `rpc/clusters.rs`. -/
structure MachineData where
  machine : MachineConfiguration
  machine_count : Nat
  cloud_instance : CloudInstance
  cloud_instance_count : Nat
deriving DecidableEq

/-- The `ClusterData` from `rpc/clusters.rs`. -/
structure ClusterData where
  id : Option Nat
  nickname : String
  description : Option String
  hardware : Option String
  cycle_type : Option String
  proof_type : Option String
  machines : List MachineData
deriving DecidableEq

/-- The `ListClustersResponse` from `rpc/clusters.rs`. -/
structure ListClustersResponse where
  clusters : List ClusterData
deriving DecidableEq

/-- The `ListActiveClustersForATeamRequest` from `rpc/clusters.rs`. -/
structure ListActiveClustersForATeamRequest where
  team_id : String
deriving DecidableEq

/-- The `ClusterID` from `rpc/clusters.rs`. -/
structure ClusterID where
  id : Nat
deriving DecidableEq

/-- The `ListActiveClustersForATeamResponse` from `rpc/clusters.rs`. -/
structure ListActiveClustersForATeamResponse where
  clusters : List ClusterID
deriving DecidableEq

/-- The `GetBlockDetailsRequest` from `rpc/blocks.rs`. -/
structure GetBlockDetailsRequest where
  block_number : BlockNumber
deriving DecidableEq

/-- The `GetBlockDetailsResponse` from `rpc/blocks.rs`. -/
structure GetBlockDetailsResponse where
  block_number : Nat
  timestamp : String
  gas_used : Nat
  transaction_count : Nat
  hash : String
  created_at : String
  updated_at : Option String
deriving DecidableEq

/-- The `CreateSingleMachineRequest` from `rpc/single_machine.rs`. -/
structure CreateSingleMachineRequest where
  nickname : String
  description : Option String
  zkvm_version_id : Nat
  hardware : Option String
  cycle_type : Option String
  proof_type : Option String
  machine : MachineConfiguration
  cloud_instance_name : String
deriving DecidableEq

/-- The `CreateSingleMachineResponse` from `rpc/single_machine.rs`. -/
structure CreateSingleMachineResponse where
  machine_id : Nat
deriving DecidableEq

/-- The `DownloadProofRequest` from `rpc/proofs.rs`. -/
structure DownloadProofRequest where
  proof_id : String
deriving DecidableEq

/-- The `DownloadProofResponse` from `rpc/proofs.rs`. -/
structure DownloadProofResponse where
  proof_binary_file : String
deriving DecidableEq

/-- The `DownloadProofsRequest` from `rpc/proofs.rs`. -/
structure DownloadProofsRequest where
  block_hash : String
deriving DecidableEq

/-- The `DownloadProofsResponse` from `rpc/proofs.rs`. -/
structure DownloadProofsResponse where
  proofs_zip_file : String
deriving DecidableEq

/-- The `ListProofsRequest` from `rpc/proofs.rs`. `limit` and `offset` are always
present after deserialization (defaulted to 100 and 0 respectively). -/
structure ListProofsRequest where
  block : Option NumberOrString
  clusters : Option String
  limit : Nat
  offset : Nat
deriving DecidableEq

/-- The `ProofStatus` from `rpc/proofs.rs`. -/
inductive ProofStatus where
  | Queued
  | Proving
  | Proved
deriving DecidableEq

/-- The `Team` from `rpc/proofs.rs`. -/
structure Team where
  id : String
  name : String
  slug : String
  created_at : String
  updated_at : Option String
  github_org : String
  logo_url : Option String
  storage_quota_bytes : Option Nat
  twitter_handle : Option String
  website_url : Option String
deriving DecidableEq

/-- The `Block` from `rpc/proofs.rs`. -/
structure Block where
  number : Nat
  hash : String
  timestamp : String
  gas_used : Nat
  transaction_count : Nat
  created_at : String
  updated_at : Option String
deriving DecidableEq

/-- The `ClusterRecord` from `rpc/proofs.rs`. -/
structure ClusterRecord where
  id : String
  nickname : Option String
  created_at : String
  updated_at : Option String
  cycle_type : String
  description : String
  hardware : String
  index : Nat
  is_active : Bool
  is_multi_machine : Bool
  is_open_source : Bool
  proof_type : String
  software_link : Option String
  team_id : String
deriving DecidableEq

/-- The `ZkvmRecord` from `rpc/proofs.rs`. -/
structure ZkvmRecord where
  id : Nat
  name : String
  slug : String
  isa : String
  team_id : String
  created_at : String
  continuations : Bool
  dual_licenses : Bool
  frontend : String
  is_open_source : Bool
  is_proving_mainnet : Bool
  parallelizable_proving : Bool
  precompiles : Bool
  repo_url : String
deriving DecidableEq

/-- The `ZkvmVersion` from `rpc/proofs.rs`. -/
structure ZkvmVersion where
  id : Nat
  version : String
  zkvm_id : Nat
  release_date : Option String
  created_at : String
  updated_at : Option String
  zkvm : ZkvmRecord
deriving DecidableEq

/-- The `ClusterVersion` from `rpc/proofs.rs`. -/
structure ClusterVersion where
  id : Nat
  cluster_id : String
  created_at : String
  updated_at : Option String
  cluster : ClusterRecord
  zkvm_version : ZkvmVersion
  cluster_machines : List ClusterMachine
  is_active : Bool
  vk_path : Option String
  index : Nat
deriving DecidableEq

/-- The `ProofRecord` from `rpc/proofs.rs` (`program_id : Option<i64>` is the one
signed field, modelled with `Int`). -/
structure ProofRecord where
  block_number : Nat
  cluster_id : String
  proof_id : Nat
  proof_status : ProofStatus
  proving_cycles : Option Nat
  team_id : String
  created_at : String
  proved_timestamp : Option String
  proving_timestamp : Option String
  queued_timestamp : Option String
  proving_time : Option Nat
  program_id : Option Int
  size_bytes : Option Nat
  team : Option Team
  block : Option Block
  cluster_version : Option ClusterVersion
  cluster_version_id : Nat
  updated_at : String
deriving DecidableEq

/-- The `ListProofsResponse` from `rpc/proofs.rs`. -/
structure ListProofsResponse where
  proofs : List ProofRecord
  total_count : Nat
  limit : Nat
  offset : Nat
deriving DecidableEq

/-- The `QueuedProofRequest` from `rpc/proofs.rs`. -/
structure QueuedProofRequest where
  block_number : Nat
  cluster_id : Nat
deriving DecidableEq

/-- The `QueuedProofResponse` from `rpc/proofs.rs`. -/
structure QueuedProofResponse where
  proof_id : Nat
deriving DecidableEq

/-- The `ProvingProofRequest` from `rpc/proofs.rs`. -/
structure ProvingProofRequest where
  block_number : Nat
  cluster_id : Nat
deriving DecidableEq

/-- The `ProvingProofResponse` from `rpc/proofs.rs`. -/
structure ProvingProofResponse where
  proof_id : Nat
deriving DecidableEq

/-- The `ProvedProofRequest` from `rpc/proofs.rs`. -/
structure ProvedProofRequest where
  block_number : Nat
  cluster_id : Nat
  proving_time : Nat
  proving_cycles : Option Nat
  proof : String
  verifier_id : Option String
deriving DecidableEq

/-- The `ProvedProofResponse` from `rpc/proofs.rs`. -/
structure ProvedProofResponse where
  proof_id : Nat
deriving DecidableEq

/-- The `ListCloudInstancesRequest` from `rpc/cloud_instances.rs`. -/
structure ListCloudInstancesRequest where
  provider : Option String
deriving DecidableEq

/-- The `ListCloudInstancesResponse` from `rpc/cloud_instances.rs`. -/
structure ListCloudInstancesResponse where
  instances : List CloudInstance
deriving DecidableEq

/-! ## JSON serialization (`serde` derive impls)

One `toJson` function per payload type that the crate ever serializes as a
request body, mirroring the serde derive: fields in declaration order, a field
with `skip_serializing_if = "Option::is_none"` omitted when `none`, a plain
`Option` field serialized as `null` when `none`. -/

/-- An optional object field with `skip_serializing_if = "Option::is_none"`:
present exactly when the value is present. -/
def skipNoneField (name : String) (v : Option Json) : List (String × Json) :=
  match v with
  | none => []
  | some j => [(name, j)]

/-- A plain `Option` field: serialized as `null` when absent. -/
def nullableJson : Option Json → Json
  | none => .null
  | some j => j

/-- The serde serialization of `MachineConfiguration` (`rpc/common.rs`). -/
def MachineConfiguration.toJson (m : MachineConfiguration) : Json :=
  .obj ([("cpu_model", .str m.cpu_model), ("cpu_cores", .num m.cpu_cores)]
    ++ skipNoneField "gpu_models" (m.gpu_models.map (fun v => .arr (v.map .str)))
    ++ skipNoneField "gpu_count" (m.gpu_count.map (fun v => .arr (v.map .num)))
    ++ skipNoneField "gpu_memory_gb" (m.gpu_memory_gb.map (fun v => .arr (v.map .num)))
    ++ [("memory_size_gb", .arr (m.memory_size_gb.map .num)),
        ("memory_count", .arr (m.memory_count.map .num)),
        ("memory_type", .arr (m.memory_type.map .str))]
    ++ skipNoneField "storage_size_gb" (m.storage_size_gb.map .num)
    ++ skipNoneField "total_tera_flops" (m.total_tera_flops.map .num)
    ++ skipNoneField "network_between_machines" (m.network_between_machines.map .str))

/-- The serde serialization of `ClusterConfiguration` (`rpc/clusters.rs`). -/
def ClusterConfiguration.toJson (c : ClusterConfiguration) : Json :=
  .obj [("machine", c.machine.toJson),
        ("machine_count", .num c.machine_count),
        ("cloud_instance_name", .str c.cloud_instance_name),
        ("cloud_instance_count", .num c.cloud_instance_count)]

/-- The serde serialization of `CreateClusterRequest` (`rpc/clusters.rs`). -/
def CreateClusterRequest.toJson (r : CreateClusterRequest) : Json :=
  .obj ([("nickname", .str r.nickname)]
    ++ skipNoneField "description" (r.description.map .str)
    ++ [("zkvm_version_id", .num r.zkvm_version_id)]
    ++ skipNoneField "hardware" (r.hardware.map .str)
    ++ skipNoneField "cycle_type" (r.cycle_type.map .str)
    ++ skipNoneField "proof_type" (r.proof_type.map .str)
    ++ [("configuration", .arr (r.configuration.map ClusterConfiguration.toJson))])

/-- The serde serialization of `CreateSingleMachineRequest`
(`rpc/single_machine.rs`). -/
def CreateSingleMachineRequest.toJson (r : CreateSingleMachineRequest) : Json :=
  .obj ([("nickname", .str r.nickname)]
    ++ skipNoneField "description" (r.description.map .str)
    ++ [("zkvm_version_id", .num r.zkvm_version_id)]
    ++ skipNoneField "hardware" (r.hardware.map .str)
    ++ skipNoneField "cycle_type" (r.cycle_type.map .str)
    ++ skipNoneField "proof_type" (r.proof_type.map .str)
    ++ [("machine", r.machine.toJson),
        ("cloud_instance_name", .str r.cloud_instance_name)])

/-- The serde serialization of `QueuedProofRequest` (`rpc/proofs.rs`). -/
def QueuedProofRequest.toJson (r : QueuedProofRequest) : Json :=
  .obj [("block_number", .num r.block_number), ("cluster_id", .num r.cluster_id)]

/-- The serde serialization of `ProvingProofRequest` (`rpc/proofs.rs`). -/
def ProvingProofRequest.toJson (r : ProvingProofRequest) : Json :=
  .obj [("block_number", .num r.block_number), ("cluster_id", .num r.cluster_id)]

/-- The serde serialization of `ProvedProofRequest` (`rpc/proofs.rs`); its two
`Option` fields are not marked `skip_serializing_if`, so they serialize as
`null` when absent. -/
def ProvedProofRequest.toJson (r : ProvedProofRequest) : Json :=
  .obj [("block_number", .num r.block_number),
        ("cluster_id", .num r.cluster_id),
        ("proving_time", .num r.proving_time),
        ("proving_cycles", nullableJson (r.proving_cycles.map .num)),
        ("proof", .str r.proof),
        ("verifier_id", nullableJson (r.verifier_id.map .str))]

/-- Models `serde_json::to_value` as the crate uses it: for the derive-serialized
payload types above, serialization to a generic JSON value cannot fail (they
contain no map with non-string keys and no custom serializer), so the `Result`
it returns is always `Ok`. -/
def serdeToValue {α : Type} (toJson : α → Json) (a : α) : Except String Json :=
  .ok (toJson a)

/-! ## `request.rs`: `EthProofsRequest` -/

/-- Models `reqwest::Method` as far as this crate uses it. -/
inductive HttpMethod where
  | GET
  | POST
deriving DecidableEq

/-- The `EthProofsRequest` from `request.rs`: the closed union of all request
variants. -/
inductive EthProofsRequest where
  | GetBlockDetails (req : GetBlockDetailsRequest)
  | CreateCluster (req : CreateClusterRequest)
  | ListClusters (req : ListClustersRequest)
  | ListActiveClustersForATeam (req : ListActiveClustersForATeamRequest)
  | CreateSingleMachine (req : CreateSingleMachineRequest)
  | DownloadProof (req : DownloadProofRequest)
  | DownloadProofs (req : DownloadProofsRequest)
  | ListProofs (req : ListProofsRequest)
  | QueuedProof (req : QueuedProofRequest)
  | ProvingProof (req : ProvingProofRequest)
  | ProvedProof (req : ProvedProofRequest)
  | ListCloudInstances (req : ListCloudInstancesRequest)
deriving DecidableEq

/-- The `EthProofsRequest::method` (`request.rs` lines 25-40). -/
def EthProofsRequest.method : EthProofsRequest → HttpMethod
  | .GetBlockDetails _ => .GET
  | .CreateCluster _ => .POST
  | .ListClusters _ => .GET
  | .ListActiveClustersForATeam _ => .GET
  | .CreateSingleMachine _ => .POST
  | .DownloadProof _ => .GET
  | .DownloadProofs _ => .GET
  | .ListProofs _ => .GET
  | .QueuedProof _ => .POST
  | .ProvingProof _ => .POST
  | .ProvedProof _ => .POST
  | .ListCloudInstances _ => .GET

/-- The `EthProofsRequest::endpoint` (`request.rs` lines 43-88). For the
`ListProofs` arm the accumulated string is rebound step by step exactly as the
Rust `push_str` sequence does, and the separator choice tests whether the
accumulated endpoint already contains `'?'`. -/
def EthProofsRequest.endpoint : EthProofsRequest → RustStr
  | .GetBlockDetails req => "/blocks/" ++ req.block_number.display
  | .CreateCluster _ => "/clusters"
  | .ListClusters _ => "/clusters"
  | .ListActiveClustersForATeam req => "/clusters/active?team_id=" ++ req.team_id
  | .CreateSingleMachine _ => "/single-machine"
  | .DownloadProof req => "/proofs/download/" ++ req.proof_id
  | .DownloadProofs req => "/proofs/download/block/" ++ req.block_hash
  | .ListProofs req =>
    let e0 : String := "/proofs"
    let e1 : String :=
      match req.block with
      | some block => e0 ++ ("?block=" ++ block.display)
      | none => e0
    let e2 : String :=
      match req.clusters with
      | some clusters =>
        e1 ++ ((if rustContains e1 '?' then "&" else "?") ++ ("clusters=" ++ clusters))
      | none => e1
    e2 ++ ((if rustContains e2 '?' then "&" else "?")
      ++ ("limit=" ++ (toString req.limit ++ ("&offset=" ++ toString req.offset))))
  | .QueuedProof _ => "/proofs/queue"
  | .ProvingProof _ => "/proofs/proving"
  | .ProvedProof _ => "/proofs/proved"
  | .ListCloudInstances req =>
    match req.provider with
    | some provider => "/cloud-instances" ++ ("?provider=" ++ provider)
    | none => "/cloud-instances"

/-- The `EthProofsRequest::body` (`request.rs` lines 92-110): GET variants carry
no body; POST variants serialize their payload with `serde_json::to_value`
and drop a serialization error with `.ok()` (modelled by `Except.toOption`). -/
def EthProofsRequest.body : EthProofsRequest → Option Json
  | .GetBlockDetails _ => none
  | .ListClusters _ => none
  | .ListActiveClustersForATeam _ => none
  | .DownloadProof _ => none
  | .DownloadProofs _ => none
  | .ListProofs _ => none
  | .ListCloudInstances _ => none
  | .CreateCluster req => (serdeToValue CreateClusterRequest.toJson req).toOption
  | .CreateSingleMachine req => (serdeToValue CreateSingleMachineRequest.toJson req).toOption
  | .QueuedProof req => (serdeToValue QueuedProofRequest.toJson req).toOption
  | .ProvingProof req => (serdeToValue ProvingProofRequest.toJson req).toOption
  | .ProvedProof req => (serdeToValue ProvedProofRequest.toJson req).toOption

/-! ## `errors.rs` and `response.rs` -/

/-- The `EthProofsError` from `errors.rs`. The wrapped collaborator error types
(`url::ParseError`, `reqwest::Error`, `serde_json::Error`) are modelled by
their message strings. -/
inductive EthProofsError where
  | InvalidURL (e : String)
  | RequestError (e : String)
  | ApiError (status : Nat) (message : String)
  | ParseError (msg : String)
deriving DecidableEq

/-- The `EthProofsResponse` from `response.rs`: the closed union of all response
variants. -/
inductive EthProofsResponse where
  | GetBlockDetails (resp : GetBlockDetailsResponse)
  | CreateCluster (resp : CreateClusterResponse)
  | ListClusters (resp : ListClustersResponse)
  | ListActiveClustersForATeam (resp : ListActiveClustersForATeamResponse)
  | CreateSingleMachine (resp : CreateSingleMachineResponse)
  | DownloadProof (resp : DownloadProofResponse)
  | DownloadProofs (resp : DownloadProofsResponse)
  | ListProofs (resp : ListProofsResponse)
  | QueuedProof (resp : QueuedProofResponse)
  | ProvingProof (resp : ProvingProofResponse)
  | ProvedProof (resp : ProvedProofResponse)
  | ListCloudInstances (resp : ListCloudInstancesResponse)
deriving DecidableEq

/-- Narrowing impl `TryFrom<EthProofsResponse> for CreateClusterResponse` (`response.rs`
lines 45-57): narrowing to the concrete response type. -/
def tryIntoCreateClusterResponse : EthProofsResponse → Except EthProofsError CreateClusterResponse
  | .CreateCluster resp => .ok resp
  | _ => .error (.ParseError "CreateClusterResponse")

/-- Narrowing impl `TryFrom<EthProofsResponse> for ListClustersResponse` (`response.rs`
lines 59-71): narrowing to the concrete response type. -/
def tryIntoListClustersResponse : EthProofsResponse → Except EthProofsError ListClustersResponse
  | .ListClusters resp => .ok resp
  | _ => .error (.ParseError "ListClustersResponse")

/-! ## `client.rs`: outcome classification of a completed HTTP exchange -/

/-- Models `reqwest::StatusCode::is_success`: the 2xx range. -/
def statusIsSuccess (status : Nat) : Bool := 200 ≤ status && status < 300

/-- A completed HTTP exchange as `EthProofsClient::call` observes it: a status
code and a response body; `body = none` models a body that cannot be read. -/
structure HttpExchange where
  status : Nat
  body : Option String
deriving DecidableEq

/-- Models `EthProofsClient::call` after the HTTP exchange completed (`client.rs`
lines 63-80): classify by status code; on a non-2xx status wrap the raw body
text (or the fallback literal) into `ApiError` without parsing it; on success
decode the body into a generic JSON value (`parseJson`, a serde_json
collaborator whose failure surfaces as the wrapped `reqwest` error) and then
into the caller's concrete type (`fromValue`, whose failure surfaces as
`ParseError`). -/
def clientCallOutcome {R : Type} (parseJson : String → Except String Json)
    (fromValue : Json → Except String R) (resp : HttpExchange) :
    Except EthProofsError R :=
  if statusIsSuccess resp.status = false then
    .error (.ApiError resp.status
      (match resp.body with
       | some t => t
       | none => "Unknown error"))
  else
    match resp.body with
    | none => .error (.RequestError "error decoding response body")
    | some text =>
      match parseJson text with
      | .error e => .error (.RequestError e)
      | .ok v =>
        match fromValue v with
        | .error e => .error (.ParseError e)
        | .ok r => .ok r

/-! ## Spec-side validity predicates (for the refinement claim C1)

These two predicates transcribe the documented constraints of the
create-cluster endpoint as the specification states them, independently of the
builder's control flow; the refinement theorem compares `build` against them. -/

/-- The documented constraints on one `MachineConfiguration`, as the spec
states them: CPU model/cores bounds, the three GPU arrays of equal length
(absent = length 0) with bounded models and positive counts/memory, the three
memory arrays of equal non-zero length with positive sizes/counts and bounded
type strings, and positivity/length bounds on the optional descriptors. -/
def ValidMachineConfigurationSpec (m : MachineConfiguration) : Prop :=
  rustLen m.cpu_model ≤ 200 ∧
  0 < m.cpu_cores ∧
  optVecLen m.gpu_count = optVecLen m.gpu_models ∧
  optVecLen m.gpu_memory_gb = optVecLen m.gpu_models ∧
  (∀ s ∈ m.gpu_models.getD [], rustLen s ≤ 200) ∧
  (∀ x ∈ m.gpu_count.getD [], 0 < x) ∧
  (∀ x ∈ m.gpu_memory_gb.getD [], 0 < x) ∧
  m.memory_count.length = m.memory_size_gb.length ∧
  m.memory_type.length = m.memory_size_gb.length ∧
  m.memory_size_gb.length ≠ 0 ∧
  (∀ x ∈ m.memory_size_gb, 0 < x) ∧
  (∀ x ∈ m.memory_count, 0 < x) ∧
  (∀ t ∈ m.memory_type, rustLen t ≤ 200) ∧
  (∀ s, m.storage_size_gb = some s → 0 < s) ∧
  (∀ f, m.total_tera_flops = some f → 0 < f) ∧
  (∀ n, m.network_between_machines = some n → rustLen n ≤ 500)

/-- The documented constraints on a whole `CreateClusterRequest`, as the spec
states them for the create-cluster endpoint. -/
def ValidCreateClusterRequestSpec (r : CreateClusterRequest) : Prop :=
  rustLen r.nickname ≤ 50 ∧
  (∀ d, r.description = some d → rustLen d ≤ 200) ∧
  (∀ h, r.hardware = some h → rustLen h ≤ 200) ∧
  (∀ c, r.cycle_type = some c → c ≠ "") ∧
  (∀ p, r.proof_type = some p → p ≠ "") ∧
  0 < r.zkvm_version_id ∧
  r.configuration ≠ [] ∧
  ∀ cfg ∈ r.configuration,
    0 < cfg.machine_count ∧ 0 < cfg.cloud_instance_count ∧
    ValidMachineConfigurationSpec cfg.machine

/-! ## Concrete inputs used by the witness and counterexample theorems -/

/-- A fully valid machine configuration (the one from the builder's doc
example in `rpc/clusters.rs`). -/
def machineOK : MachineConfiguration :=
  { cpu_model := "Intel Xeon"
    cpu_cores := 4
    gpu_models := some ["RTX 4090"]
    gpu_count := some [1]
    gpu_memory_gb := some [24]
    memory_size_gb := [32]
    memory_count := [8]
    memory_type := ["DDR5"]
    storage_size_gb := some 1000
    total_tera_flops := some 1000
    network_between_machines := some "100GbE" }

/-- A fully valid cluster configuration entry. -/
def cfgOK : ClusterConfiguration :=
  { machine := machineOK
    machine_count := 2
    cloud_instance_name := "c5.xlarge"
    cloud_instance_count := 1 }

/-- A builder state whose every field is set and valid. -/
def builderOK : CreateClusterRequestBuilder :=
  { nickname := some "My Cluster"
    description := some "A test cluster"
    zkvm_version_id := some 1
    hardware := some "deprecated"
    cycle_type := some "SP1"
    proof_type := some "Groth16"
    configuration := some [cfgOK] }

/-- The request `builderOK` builds. -/
def reqOK : CreateClusterRequest :=
  { nickname := "My Cluster"
    description := some "A test cluster"
    zkvm_version_id := 1
    hardware := some "deprecated"
    cycle_type := some "SP1"
    proof_type := some "Groth16"
    configuration := [cfgOK] }

/-- A 51-character nickname (`"x".repeat(51)`). -/
def strX51 : String := String.mk (List.replicate 51 'x')

/-- A 201-character description (`"x".repeat(201)`). -/
def strX201 : String := String.mk (List.replicate 201 'x')

/-- Builder `builderOK` with an over-long nickname. -/
def builder51 : CreateClusterRequestBuilder :=
  { builderOK with nickname := some strX51 }

/-- A machine whose GPU arrays have unequal lengths: one model but an absent
count array (absent = length 0). -/
def machineGpuBad : MachineConfiguration :=
  { machineOK with gpu_models := some ["RTX 4090"], gpu_count := none }

/-- A cluster configuration entry wrapping `machineGpuBad`. -/
def cfgGpuBad : ClusterConfiguration :=
  { cfgOK with machine := machineGpuBad }

/-- Builder `builderOK` with a configuration whose GPU arrays mismatch. -/
def builderGpuBad : CreateClusterRequestBuilder :=
  { builderOK with configuration := some [cfgGpuBad] }

/-- A builder with a valid nickname, an over-long description and
`zkvm_version_id` unset. -/
def builderDescNoZkvm : CreateClusterRequestBuilder :=
  { nickname := some "a", description := some strX201 }

/-- A stub for the serde_json body-decoding collaborator that always fails:
the non-2xx classification must never consult it. -/
def parseJsonStub : String → Except String Json := fun _ => .error "stub json error"

/-- A stub for the serde_json typed-deserialization collaborator that always
fails: the non-2xx classification must never consult it. -/
def fromValueStub : Json → Except String CreateClusterResponse :=
  fun _ => .error "stub decode error"

/-- A completed exchange: HTTP 404 with body `"not found"`. -/
def exchange404 : HttpExchange := { status := 404, body := some "not found" }

/-! ## Helper lemmas -/

theorem string_data_append (a b : String) : (a ++ b).data = a.data ++ b.data := by
  cases a; cases b; rfl

theorem rustContains_append (a b : String) (c : Char) :
    rustContains (a ++ b) c = (rustContains a c || rustContains b c) := by
  simp [rustContains, string_data_append]

theorem rustContains_proofs : rustContains "/proofs" '?' = false := by decide

theorem rustContains_qblock : rustContains "?block=" '?' = true := by decide

theorem rustContains_qmark : rustContains "?" '?' = true := by decide

theorem seqCheck_ok_iff {a b : Except BuildStop Unit} :
    seqCheck a b = .ok () ↔ (a = .ok () ∧ b = .ok ()) := by
  cases a with
  | ok u => cases u; simp [seqCheck]
  | error e => simp [seqCheck]

theorem seqCheck_error_iff {a b : Except BuildStop Unit} {e : BuildStop} :
    seqCheck a b = .error e ↔ (a = .error e ∨ (a = .ok () ∧ b = .error e)) := by
  cases a with
  | ok u => cases u; simp [seqCheck]
  | error f => simp [seqCheck]

/-! ## C6: the `ListProofs` endpoint's query string -/

/-- C6: for every `ListProofsRequest`, `endpoint()` returns `"/proofs"`
followed by a query string that includes `block={block}` only when `block` is
present and `clusters={clusters}` only when `clusters` is present, joins the
first present parameter with `'?'` and each subsequent parameter with `'&'`,
and always ends with `limit={limit}&offset={offset}` appended last. -/
theorem listProofs_endpoint_query_shape (req : ListProofsRequest) :
    (EthProofsRequest.ListProofs req).endpoint =
      match req.block, req.clusters with
      | none, none =>
        "/proofs" ++ ("?" ++ ("limit=" ++ (toString req.limit ++ ("&offset=" ++ toString req.offset))))
      | some block, none =>
        ("/proofs" ++ ("?block=" ++ block.display))
          ++ ("&" ++ ("limit=" ++ (toString req.limit ++ ("&offset=" ++ toString req.offset))))
      | none, some clusters =>
        ("/proofs" ++ ("?" ++ ("clusters=" ++ clusters)))
          ++ ("&" ++ ("limit=" ++ (toString req.limit ++ ("&offset=" ++ toString req.offset))))
      | some block, some clusters =>
        (("/proofs" ++ ("?block=" ++ block.display)) ++ ("&" ++ ("clusters=" ++ clusters)))
          ++ ("&" ++ ("limit=" ++ (toString req.limit ++ ("&offset=" ++ toString req.offset)))) := by
  obtain ⟨block, clusters, limit, offset⟩ := req
  cases block <;> cases clusters <;>
    simp [EthProofsRequest.endpoint, rustContains_append,
      rustContains_proofs, rustContains_qblock, rustContains_qmark]

/-! ## C7: body derivation -/

/-- C7: `body()` returns `None` for each GET variant; each mutating variant
serializes its payload with `serde_json::to_value`, keeping the `Ok` value
and turning a (never-occurring) serialization failure into `None` via `.ok()`
— which for these always-serializable payloads yields exactly the payload's
JSON serialization. -/
theorem body_none_for_get_some_json_for_post :
    (∀ p, (EthProofsRequest.GetBlockDetails p).body = none) ∧
    (∀ p, (EthProofsRequest.ListClusters p).body = none) ∧
    (∀ p, (EthProofsRequest.ListActiveClustersForATeam p).body = none) ∧
    (∀ p, (EthProofsRequest.DownloadProof p).body = none) ∧
    (∀ p, (EthProofsRequest.DownloadProofs p).body = none) ∧
    (∀ p, (EthProofsRequest.ListProofs p).body = none) ∧
    (∀ p, (EthProofsRequest.ListCloudInstances p).body = none) ∧
    (∀ p, (EthProofsRequest.CreateCluster p).body =
      (serdeToValue CreateClusterRequest.toJson p).toOption) ∧
    (∀ p, (EthProofsRequest.CreateCluster p).body = some p.toJson) ∧
    (∀ p, (EthProofsRequest.CreateSingleMachine p).body =
      (serdeToValue CreateSingleMachineRequest.toJson p).toOption) ∧
    (∀ p, (EthProofsRequest.CreateSingleMachine p).body = some p.toJson) ∧
    (∀ p, (EthProofsRequest.QueuedProof p).body =
      (serdeToValue QueuedProofRequest.toJson p).toOption) ∧
    (∀ p, (EthProofsRequest.QueuedProof p).body = some p.toJson) ∧
    (∀ p, (EthProofsRequest.ProvingProof p).body =
      (serdeToValue ProvingProofRequest.toJson p).toOption) ∧
    (∀ p, (EthProofsRequest.ProvingProof p).body = some p.toJson) ∧
    (∀ p, (EthProofsRequest.ProvedProof p).body =
      (serdeToValue ProvedProofRequest.toJson p).toOption) ∧
    (∀ p, (EthProofsRequest.ProvedProof p).body = some p.toJson) :=
  ⟨fun _ => rfl, fun _ => rfl, fun _ => rfl, fun _ => rfl, fun _ => rfl, fun _ => rfl,
   fun _ => rfl, fun _ => rfl, fun _ => rfl, fun _ => rfl, fun _ => rfl, fun _ => rfl,
   fun _ => rfl, fun _ => rfl, fun _ => rfl, fun _ => rfl, fun _ => rfl⟩

/-! ## C8: response narrowing -/

/-- C8: narrowing succeeds exactly when the variant tag matches, returning the
wrapped payload unchanged, and fails with a parse error naming the expected
type otherwise; in particular `ListClusters(p)` narrowed as
`CreateClusterResponse` fails with a parse error naming
`"CreateClusterResponse"`, and narrowed as `ListClustersResponse` yields `p`. -/
theorem narrowing_matches_tag :
    (∀ p, tryIntoListClustersResponse (.ListClusters p) = .ok p) ∧
    (∀ p, tryIntoCreateClusterResponse (.ListClusters p) =
      .error (.ParseError "CreateClusterResponse")) ∧
    (∀ v p, tryIntoCreateClusterResponse v = .ok p ↔ v = .CreateCluster p) ∧
    (∀ v, (∀ p, v ≠ .CreateCluster p) →
      tryIntoCreateClusterResponse v = .error (.ParseError "CreateClusterResponse")) ∧
    (∀ v p, tryIntoListClustersResponse v = .ok p ↔ v = .ListClusters p) ∧
    (∀ v, (∀ p, v ≠ .ListClusters p) →
      tryIntoListClustersResponse v = .error (.ParseError "ListClustersResponse")) := by
  refine ⟨fun p => rfl, fun p => rfl, fun v p => ?_, fun v h => ?_, fun v p => ?_, fun v h => ?_⟩
  · cases v <;> simp [tryIntoCreateClusterResponse]
  · cases v <;> first
      | exact absurd rfl (h _)
      | rfl
  · cases v <;> simp [tryIntoListClustersResponse]
  · cases v <;> first
      | exact absurd rfl (h _)
      | rfl

/-! ## C9: non-2xx statuses become `ApiError` with the raw body -/

/-- C9: when the HTTP exchange completes with a non-2xx status, the call
result is `ApiError{status, message}` with the raw body text verbatim (or the
fallback literal when the body cannot be read); the body is not JSON-decoded
(the result does not depend on the decoding collaborators) and the outcome is
never a `ParseError`. -/
theorem clientCall_non2xx_is_apiError {R : Type} (parseJson : String → Except String Json)
    (fromValue : Json → Except String R) (resp : HttpExchange)
    (h : statusIsSuccess resp.status = false) :
    clientCallOutcome parseJson fromValue resp =
      .error (.ApiError resp.status
        (match resp.body with
         | some t => t
         | none => "Unknown error")) ∧
    ∀ s, clientCallOutcome parseJson fromValue resp ≠ .error (.ParseError s) := by
  have h1 : clientCallOutcome parseJson fromValue resp =
      .error (.ApiError resp.status
        (match resp.body with
         | some t => t
         | none => "Unknown error")) := by
    unfold clientCallOutcome
    rw [h]
    simp
  refine ⟨h1, fun s hs => ?_⟩
  rw [h1] at hs
  simp at hs

/-- Witness for C9: an HTTP 404 with body `"not found"` yields
`ApiError{status: 404, message: "not found"}`. -/
theorem clientCall_404_witness :
    statusIsSuccess exchange404.status = false ∧
    clientCallOutcome parseJsonStub fromValueStub exchange404 =
      .error (.ApiError 404 "not found") :=
  ⟨by decide,
   (clientCall_non2xx_is_apiError parseJsonStub fromValueStub exchange404 (by decide)).1⟩

/-! ## Soundness lemmas for the builder's sub-checks -/

theorem checkConfigHeader_ok {config : ClusterConfiguration}
    (h : checkConfigHeader config = .ok ()) :
    0 < config.machine_count ∧ 0 < config.cloud_instance_count ∧
    rustLen config.machine.cpu_model ≤ 200 ∧ 0 < config.machine.cpu_cores := by
  unfold checkConfigHeader at h
  split at h
  · simp at h
  split at h
  · simp at h
  split at h
  · simp at h
  split at h
  · simp at h
  omega

theorem checkOptFields_ok {machine : MachineConfiguration}
    (h : checkOptFields machine = .ok ()) :
    (∀ s, machine.storage_size_gb = some s → 0 < s) ∧
    (∀ f, machine.total_tera_flops = some f → 0 < f) ∧
    (∀ n, machine.network_between_machines = some n → rustLen n ≤ 500) := by
  unfold checkOptFields at h
  split at h
  · simp at h
  split at h
  · simp at h
  split at h
  · simp at h
  rename_i h1 h2 h3
  refine ⟨fun s hs => ?_, fun f hf => ?_, fun n hn => ?_⟩
  · rw [hs] at h1; simp [Option.any_some] at h1; omega
  · rw [hf] at h2; simp [Option.any_some] at h2; omega
  · rw [hn] at h3; simp [Option.any_some] at h3; omega

theorem checkGpuElems_ok {machine : MachineConfiguration} :
    ∀ (l : List String) (i : Nat), checkGpuElems machine i l = .ok () →
      ∀ j, j < l.length →
        (∀ s, l[j]? = some s → rustLen s ≤ 200) ∧
        (∀ v, machine.gpu_count = some v → ∀ x, v[i + j]? = some x → 0 < x) ∧
        (∀ v, machine.gpu_memory_gb = some v → ∀ x, v[i + j]? = some x → 0 < x) := by
  intro l
  induction l with
  | nil =>
    intro i h j hj
    exact absurd hj (Nat.not_lt_zero j)
  | cons model rest ih =>
    intro i h j hj
    unfold checkGpuElems at h
    split at h
    · simp at h
    rename_i hlen
    rw [seqCheck_ok_iff] at h
    obtain ⟨hcnt, h2⟩ := h
    rw [seqCheck_ok_iff] at h2
    obtain ⟨hmem, hrest⟩ := h2
    cases j with
    | zero =>
      refine ⟨fun s hs => ?_, fun v hv x hx => ?_, fun v hv x hx => ?_⟩
      · simp at hs
        subst hs
        omega
      · unfold gpuCountCheck at hcnt
        rw [Nat.add_zero] at hx
        split at hcnt
        · rename_i heq
          rw [hv] at heq
          exact Option.noConfusion heq
        · rename_i v' heq
          rw [hv] at heq
          injection heq with heq
          subst heq
          split at hcnt
          · rename_i hnone
            rw [hx] at hnone
            exact Option.noConfusion hnone
          · rename_i y hy
            rw [hx] at hy
            injection hy with hy
            subst hy
            split at hcnt
            · simp at hcnt
            · omega
      · unfold gpuMemoryCheck at hmem
        rw [Nat.add_zero] at hx
        split at hmem
        · rename_i heq
          rw [hv] at heq
          exact Option.noConfusion heq
        · rename_i v' heq
          rw [hv] at heq
          injection heq with heq
          subst heq
          split at hmem
          · rename_i hnone
            rw [hx] at hnone
            exact Option.noConfusion hnone
          · rename_i y hy
            rw [hx] at hy
            injection hy with hy
            subst hy
            split at hmem
            · simp at hmem
            · omega
    | succ j =>
      obtain ⟨a, b, c⟩ := ih (i + 1) hrest j (by simpa using hj)
      refine ⟨fun s hs => a s (by simpa using hs),
        fun v hv x hx => b v hv x ?_, fun v hv x hx => c v hv x ?_⟩
      · rw [show i + 1 + j = i + (j + 1) by omega]
        exact hx
      · rw [show i + 1 + j = i + (j + 1) by omega]
        exact hx

theorem checkMemElems_ok {machine : MachineConfiguration} :
    ∀ (l : List Nat) (i : Nat), checkMemElems machine i l = .ok () →
      ∀ j, j < l.length →
        (∀ x, l[j]? = some x → 0 < x) ∧
        (∀ x, machine.memory_count[i + j]? = some x → 0 < x) ∧
        (∀ t, machine.memory_type[i + j]? = some t → rustLen t ≤ 200) := by
  intro l
  induction l with
  | nil =>
    intro i h j hj
    exact absurd hj (Nat.not_lt_zero j)
  | cons size rest ih =>
    intro i h j hj
    unfold checkMemElems at h
    split at h
    · simp at h
    rename_i hsize
    rw [seqCheck_ok_iff] at h
    obtain ⟨hcnt, h2⟩ := h
    rw [seqCheck_ok_iff] at h2
    obtain ⟨htype, hrest⟩ := h2
    cases j with
    | zero =>
      refine ⟨fun x hx => ?_, fun x hx => ?_, fun t ht => ?_⟩
      · simp at hx
        subst hx
        omega
      · unfold memCountCheck at hcnt
        rw [Nat.add_zero] at hx
        split at hcnt
        · rename_i hnone
          rw [hx] at hnone
          exact Option.noConfusion hnone
        · rename_i y hy
          rw [hx] at hy
          injection hy with hy
          subst hy
          split at hcnt
          · simp at hcnt
          · omega
      · unfold memTypeCheck at htype
        rw [Nat.add_zero] at ht
        split at htype
        · rename_i hnone
          rw [ht] at hnone
          exact Option.noConfusion hnone
        · rename_i y hy
          rw [ht] at hy
          injection hy with hy
          subst hy
          split at htype
          · simp at htype
          · omega
    | succ j =>
      obtain ⟨a, b, c⟩ := ih (i + 1) hrest j (by simpa using hj)
      refine ⟨fun x hx => a x (by simpa using hx),
        fun x hx => b x ?_, fun t ht => c t ?_⟩
      · rw [show i + 1 + j = i + (j + 1) by omega]
        exact hx
      · rw [show i + 1 + j = i + (j + 1) by omega]
        exact ht

theorem optVecLen_eq_zero {α : Type} {o : Option (List α)} (h : optVecLen o = 0) :
    o.getD [] = [] := by
  cases o with
  | none => rfl
  | some v => simpa [optVecLen, List.length_eq_zero] using h

theorem checkGpu_ok {machine : MachineConfiguration} (h : checkGpu machine = .ok ()) :
    optVecLen machine.gpu_count = optVecLen machine.gpu_models ∧
    optVecLen machine.gpu_memory_gb = optVecLen machine.gpu_models ∧
    (∀ s ∈ machine.gpu_models.getD [], rustLen s ≤ 200) ∧
    (∀ x ∈ machine.gpu_count.getD [], 0 < x) ∧
    (∀ x ∈ machine.gpu_memory_gb.getD [], 0 < x) := by
  unfold checkGpu at h
  split at h
  · simp at h
  rename_i hlen
  push_neg at hlen
  obtain ⟨hc, hm⟩ := hlen
  refine ⟨hc, hm, ?_, ?_, ?_⟩
  · split at h
    · rename_i heqm
      simp [heqm]
    · rename_i models heqm
      rw [heqm]
      intro s hs
      rw [List.mem_iff_getElem] at hs
      obtain ⟨j, hj, rfl⟩ := hs
      simp only [Option.getD_some] at hj ⊢
      exact (checkGpuElems_ok models 0 h j hj).1 _ (List.getElem?_eq_getElem hj)
  · split at h
    · rename_i heqm
      rw [heqm] at hc
      intro x hx
      rw [optVecLen_eq_zero hc] at hx
      simp at hx
    · rename_i models heqm
      cases hgc : machine.gpu_count with
      | none => simp
      | some v =>
        intro x hx
        simp only [Option.getD_some] at hx
        rw [List.mem_iff_getElem] at hx
        obtain ⟨j, hj, rfl⟩ := hx
        have hjm : j < models.length := by
          rw [hgc, heqm] at hc
          simp only [optVecLen] at hc
          omega
        have := (checkGpuElems_ok models 0 h j hjm).2.1 v hgc
        exact this _ (by simp [List.getElem?_eq_getElem hj])
  · split at h
    · rename_i heqm
      rw [heqm] at hm
      intro x hx
      rw [optVecLen_eq_zero hm] at hx
      simp at hx
    · rename_i models heqm
      cases hgm : machine.gpu_memory_gb with
      | none => simp
      | some v =>
        intro x hx
        simp only [Option.getD_some] at hx
        rw [List.mem_iff_getElem] at hx
        obtain ⟨j, hj, rfl⟩ := hx
        have hjm : j < models.length := by
          rw [hgm, heqm] at hm
          simp only [optVecLen] at hm
          omega
        have := (checkGpuElems_ok models 0 h j hjm).2.2 v hgm
        exact this _ (by simp [List.getElem?_eq_getElem hj])

theorem checkMem_ok {machine : MachineConfiguration} (h : checkMem machine = .ok ()) :
    machine.memory_count.length = machine.memory_size_gb.length ∧
    machine.memory_type.length = machine.memory_size_gb.length ∧
    machine.memory_size_gb.length ≠ 0 ∧
    (∀ x ∈ machine.memory_size_gb, 0 < x) ∧
    (∀ x ∈ machine.memory_count, 0 < x) ∧
    (∀ t ∈ machine.memory_type, rustLen t ≤ 200) := by
  unfold checkMem at h
  split at h
  · simp at h
  rename_i hlen
  push_neg at hlen
  obtain ⟨hc, ht⟩ := hlen
  split at h
  · simp at h
  rename_i hz
  refine ⟨hc, ht, hz, ?_, ?_, ?_⟩
  · intro x hx
    rw [List.mem_iff_getElem] at hx
    obtain ⟨j, hj, rfl⟩ := hx
    exact (checkMemElems_ok _ 0 h j hj).1 _ (List.getElem?_eq_getElem hj)
  · intro x hx
    rw [List.mem_iff_getElem] at hx
    obtain ⟨j, hj, rfl⟩ := hx
    have hjs : j < machine.memory_size_gb.length := hc ▸ hj
    exact (checkMemElems_ok _ 0 h j hjs).2.1 _ (by simp [List.getElem?_eq_getElem hj])
  · intro t htm
    rw [List.mem_iff_getElem] at htm
    obtain ⟨j, hj, rfl⟩ := htm
    have hjs : j < machine.memory_size_gb.length := ht ▸ hj
    exact (checkMemElems_ok _ 0 h j hjs).2.2 _ (by simp [List.getElem?_eq_getElem hj])

theorem checkConfig_ok {config : ClusterConfiguration} (h : checkConfig config = .ok ()) :
    0 < config.machine_count ∧ 0 < config.cloud_instance_count ∧
    ValidMachineConfigurationSpec config.machine := by
  unfold checkConfig at h
  rw [seqCheck_ok_iff] at h
  obtain ⟨h1, h⟩ := h
  rw [seqCheck_ok_iff] at h
  obtain ⟨h2, h⟩ := h
  rw [seqCheck_ok_iff] at h
  obtain ⟨h3, h4⟩ := h
  obtain ⟨a1, a2, a3, a4⟩ := checkConfigHeader_ok h1
  obtain ⟨g1, g2, g3, g4, g5⟩ := checkGpu_ok h2
  obtain ⟨m1, m2, m3, m4, m5, m6⟩ := checkMem_ok h3
  obtain ⟨o1, o2, o3⟩ := checkOptFields_ok h4
  exact ⟨a1, a2, a3, a4, g1, g2, g3, g4, g5, m1, m2, m3, m4, m5, m6, o1, o2, o3⟩

theorem seqCheck_assoc (a b c : Except BuildStop Unit) :
    seqCheck (seqCheck a b) c = seqCheck a (seqCheck b c) := by
  cases a with
  | ok u => rfl
  | error e => rfl

theorem checkConfigs_ok_iff {l : List ClusterConfiguration} :
    checkConfigs l = .ok () ↔ ∀ c ∈ l, checkConfig c = .ok () := by
  induction l with
  | nil => simp [checkConfigs]
  | cons c rest ih => simp [checkConfigs, seqCheck_ok_iff, ih]

theorem checkConfigs_append (l1 l2 : List ClusterConfiguration) :
    checkConfigs (l1 ++ l2) = seqCheck (checkConfigs l1) (checkConfigs l2) := by
  induction l1 with
  | nil => simp [checkConfigs, seqCheck]
  | cons c rest ih => simp [checkConfigs, ih, seqCheck_assoc]

/-! ## C1: every successfully built request satisfies the documented constraints -/

/-- C1: every `CreateClusterRequest` returned by a successful
`CreateClusterRequestBuilder::build()` satisfies all documented constraints of
the create-cluster endpoint (`ValidCreateClusterRequestSpec`). -/
theorem build_result_satisfies_constraints (b : CreateClusterRequestBuilder)
    (req : CreateClusterRequest) (h : b.build = .ok req) :
    ValidCreateClusterRequestSpec req := by
  unfold CreateClusterRequestBuilder.build at h
  split at h
  · simp at h
  rename_i nickname hn
  split at h
  · simp at h
  rename_i hn50
  split at h
  · simp at h
  rename_i hdesc
  split at h
  · simp at h
  rename_i z hz
  split at h
  · simp at h
  rename_i hz0
  split at h
  · simp at h
  rename_i hhw
  split at h
  · simp at h
  rename_i hcy
  split at h
  · simp at h
  rename_i hpt
  split at h
  · simp at h
  rename_i configuration hcfg
  split at h
  · simp at h
  rename_i hne
  split at h
  · simp at h
  rename_i val hcc
  cases val
  injection h with h
  subst h
  unfold ValidCreateClusterRequestSpec
  dsimp only
  refine ⟨by omega, ?_, ?_, ?_, ?_, by omega, ?_, ?_⟩
  · intro d hd
    rw [hd] at hdesc
    simp [Option.any_some] at hdesc
    omega
  · intro hw hhw2
    rw [hhw2] at hhw
    simp [Option.any_some] at hhw
    omega
  · intro c hc
    rw [hc] at hcy
    simp [Option.any_some] at hcy
    intro he
    subst he
    revert hcy
    decide
  · intro p hp
    rw [hp] at hpt
    simp [Option.any_some] at hpt
    intro he
    subst he
    revert hpt
    decide
  · intro he
    subst he
    simp at hne
  · intro cfg hcfg2
    exact checkConfig_ok (checkConfigs_ok_iff.mp hcc cfg hcfg2)

/-- Witness for C1: `builderOK` builds successfully and the result satisfies
the documented constraints. -/
theorem build_result_satisfies_constraints_witness :
    CreateClusterRequestBuilder.build builderOK = .ok reqOK ∧
    ValidCreateClusterRequestSpec reqOK :=
  ⟨by rfl, build_result_satisfies_constraints builderOK reqOK (by rfl)⟩

/-- Evaluation of `build` when every check before the configuration loop
passes: the result is determined by the loop. -/
theorem build_eval_configs (b : CreateClusterRequestBuilder) (nick : String) (z : Nat)
    (cfgs : List ClusterConfiguration)
    (hn : b.nickname = some nick) (hn50 : ¬rustLen nick > 50)
    (hd : b.description.any (fun d => rustLen d > 200) = false)
    (hz : b.zkvm_version_id = some z) (hz0 : ¬z = 0)
    (hh : b.hardware.any (fun s => rustLen s > 200) = false)
    (hcy : b.cycle_type.any String.isEmpty = false)
    (hp : b.proof_type.any String.isEmpty = false)
    (hcfg : b.configuration = some cfgs) (hne : cfgs.isEmpty = false) :
    b.build = (match checkConfigs cfgs with
               | .error e => .error e
               | .ok _ => .ok { nickname := nick, description := b.description,
                                zkvm_version_id := z, hardware := b.hardware,
                                cycle_type := b.cycle_type, proof_type := b.proof_type,
                                configuration := cfgs }) := by
  unfold CreateClusterRequestBuilder.build
  simp [hn, hz, hcfg, hd, hh, hcy, hp, hne, hn50, hz0]

/-! ## C3: the nickname length rule -/

/-- C3: for every builder state in which the nickname is set and all other
fields satisfy their constraints, `build()` fails with `InvalidField` naming
`"nickname"` if and only if the nickname is longer than 50 characters. -/
theorem build_nickname_rule (b : CreateClusterRequestBuilder) (nick : String)
    (hn : b.nickname = some nick)
    (hd : b.description.any (fun d => rustLen d > 200) = false)
    (hz : ∃ z, b.zkvm_version_id = some z ∧ z ≠ 0)
    (hh : b.hardware.any (fun s => rustLen s > 200) = false)
    (hcy : b.cycle_type.any String.isEmpty = false)
    (hp : b.proof_type.any String.isEmpty = false)
    (hcfg : ∃ cfgs, b.configuration = some cfgs ∧ cfgs.isEmpty = false ∧
      checkConfigs cfgs = .ok ()) :
    (∃ msg, b.build = .error (.err (.InvalidField "nickname" msg))) ↔ 50 < rustLen nick := by
  obtain ⟨z, hz, hz0⟩ := hz
  obtain ⟨cfgs, hcfg, hne, hok⟩ := hcfg
  by_cases h50 : rustLen nick > 50
  · refine ⟨fun _ => h50, fun _ => ⟨"must be at most 50 characters", ?_⟩⟩
    unfold CreateClusterRequestBuilder.build
    simp [hn, h50]
  · have heval := build_eval_configs b nick z cfgs hn h50 hd hz hz0 hh hcy hp hcfg hne
    rw [hok] at heval
    refine ⟨fun ⟨msg, hmsg⟩ => ?_, fun hc => absurd hc h50⟩
    rw [heval] at hmsg
    simp at hmsg

/-- Witness for C3: a builder with `nickname = "x".repeat(51)` and all other
fields valid yields `InvalidField("nickname", _)`. -/
theorem build_nickname_rule_witness :
    ∃ msg, CreateClusterRequestBuilder.build builder51 =
      .error (.err (.InvalidField "nickname" msg)) :=
  (build_nickname_rule builder51 strX51 (by rfl) (by rfl) ⟨1, rfl, by decide⟩ (by rfl)
      (by rfl) (by rfl) ⟨[cfgOK], rfl, by rfl, by rfl⟩).mpr (by decide)

/-! ## C5: the claimed rule order is not the code's order -/

/-- Counterexample for C5: a builder with a valid nickname, a 201-character
description and `zkvm_version_id` unset fails with
`InvalidField("description", _)`, not with `MissingField("zkvm_version_id")`
as the claim's rule order would require. -/
theorem build_desc_beats_missing_zkvm_counterexample :
    CreateClusterRequestBuilder.build builderDescNoZkvm =
      .error (.err (.InvalidField "description" "must be at most 200 characters")) ∧
    CreateClusterRequestBuilder.build builderDescNoZkvm ≠
      .error (.err (.MissingField "zkvm_version_id")) := by
  constructor
  · rfl
  · intro h
    have h1 : CreateClusterRequestBuilder.build builderDescNoZkvm =
        .error (.err (.InvalidField "description" "must be at most 200 characters")) := rfl
    rw [h1] at h
    simp at h

/-- C5 (amended): the reported error is the first failing check in the code's
sequential order, which interleaves presence and validity checks (nickname
presence, nickname length, description length, zkvm_version_id presence, ...);
in particular a builder with a valid nickname, an over-long description and
`zkvm_version_id` unset fails with `InvalidField("description", _)`. -/
theorem build_desc_checked_before_zkvm_presence (b : CreateClusterRequestBuilder)
    (nick d : String)
    (hn : b.nickname = some nick) (h50 : rustLen nick ≤ 50)
    (hd : b.description = some d) (hdlen : 200 < rustLen d)
    (_hz : b.zkvm_version_id = none) :
    b.build = .error (.err (.InvalidField "description" "must be at most 200 characters")) := by
  unfold CreateClusterRequestBuilder.build
  simp [hn, hd, Option.any_some, hdlen, show ¬rustLen nick > 50 by omega]

/-- Witness for the amended C5. -/
theorem build_desc_checked_before_zkvm_presence_witness :
    CreateClusterRequestBuilder.build builderDescNoZkvm =
      .error (.err (.InvalidField "description" "must be at most 200 characters")) :=
  build_desc_checked_before_zkvm_presence builderDescNoZkvm "a" strX201 rfl (by decide)
    rfl (by decide) rfl

/-! ## C2: round-trip of a built request through the request model -/

/-- C2: wrapping any successfully built `CreateClusterRequest` in
`EthProofsRequest::CreateCluster` derives method POST, endpoint `/clusters`,
and a body equal to the JSON serialization of the built request. -/
theorem built_cluster_request_roundtrip (b : CreateClusterRequestBuilder)
    (req : CreateClusterRequest) (_h : b.build = .ok req) :
    (EthProofsRequest.CreateCluster req).method = .POST ∧
    (EthProofsRequest.CreateCluster req).endpoint = "/clusters" ∧
    (EthProofsRequest.CreateCluster req).body = some req.toJson :=
  ⟨rfl, rfl, rfl⟩

/-- Witness for C2 at the concrete builder `builderOK`. -/
theorem built_cluster_request_roundtrip_witness :
    CreateClusterRequestBuilder.build builderOK = .ok reqOK ∧
    ((EthProofsRequest.CreateCluster reqOK).method = .POST ∧
     (EthProofsRequest.CreateCluster reqOK).endpoint = "/clusters" ∧
     (EthProofsRequest.CreateCluster reqOK).body = some reqOK.toJson) :=
  ⟨by rfl, built_cluster_request_roundtrip builderOK reqOK (by rfl)⟩

/-! ## C10: the element-validation loops never index out of bounds -/

theorem checkGpuElems_no_panic {machine : MachineConfiguration} :
    ∀ (l : List String) (i : Nat),
      (∀ v, machine.gpu_count = some v → i + l.length ≤ v.length) →
      (∀ v, machine.gpu_memory_gb = some v → i + l.length ≤ v.length) →
      checkGpuElems machine i l ≠ .error .indexPanic := by
  intro l
  induction l with
  | nil =>
    intro i _ _ hcon
    simp [checkGpuElems] at hcon
  | cons model rest ih =>
    intro i h1 h2 hcon
    unfold checkGpuElems at hcon
    split at hcon
    · simp at hcon
    rw [seqCheck_error_iff] at hcon
    rcases hcon with hcnt | ⟨_, hcon⟩
    · unfold gpuCountCheck at hcnt
      split at hcnt
      · simp at hcnt
      rename_i v heq
      split at hcnt
      · rename_i hnone
        rw [List.getElem?_eq_none_iff] at hnone
        have := h1 v heq
        simp at this
        omega
      · split at hcnt <;> simp at hcnt
    · rw [seqCheck_error_iff] at hcon
      rcases hcon with hmem | ⟨_, hrest⟩
      · unfold gpuMemoryCheck at hmem
        split at hmem
        · simp at hmem
        rename_i v heq
        split at hmem
        · rename_i hnone
          rw [List.getElem?_eq_none_iff] at hnone
          have := h2 v heq
          simp at this
          omega
        · split at hmem <;> simp at hmem
      · refine ih (i + 1) (fun v hv => ?_) (fun v hv => ?_) hrest
        · have := h1 v hv
          simp at this ⊢
          omega
        · have := h2 v hv
          simp at this ⊢
          omega

theorem checkMemElems_no_panic {machine : MachineConfiguration} :
    ∀ (l : List Nat) (i : Nat),
      i + l.length ≤ machine.memory_count.length →
      i + l.length ≤ machine.memory_type.length →
      checkMemElems machine i l ≠ .error .indexPanic := by
  intro l
  induction l with
  | nil =>
    intro i _ _ hcon
    simp [checkMemElems] at hcon
  | cons size rest ih =>
    intro i h1 h2 hcon
    unfold checkMemElems at hcon
    split at hcon
    · simp at hcon
    rw [seqCheck_error_iff] at hcon
    rcases hcon with hcnt | ⟨_, hcon⟩
    · unfold memCountCheck at hcnt
      split at hcnt
      · rename_i hnone
        rw [List.getElem?_eq_none_iff] at hnone
        simp at h1
        omega
      · split at hcnt <;> simp at hcnt
    · rw [seqCheck_error_iff] at hcon
      rcases hcon with htyp | ⟨_, hrest⟩
      · unfold memTypeCheck at htyp
        split at htyp
        · rename_i hnone
          rw [List.getElem?_eq_none_iff] at hnone
          simp at h2
          omega
        · split at htyp <;> simp at htyp
      · refine ih (i + 1) (by simp at h1 ⊢; omega) (by simp at h2 ⊢; omega) hrest

theorem checkGpu_no_panic (machine : MachineConfiguration) :
    checkGpu machine ≠ .error .indexPanic := by
  intro hcon
  unfold checkGpu at hcon
  split at hcon
  · simp at hcon
  rename_i hlen
  push_neg at hlen
  obtain ⟨hc, hm⟩ := hlen
  split at hcon
  · simp at hcon
  rename_i models heqm
  rw [heqm] at hc hm
  refine checkGpuElems_no_panic models 0 (fun v hv => ?_) (fun v hv => ?_) hcon
  · rw [hv] at hc
    simp only [optVecLen] at hc
    omega
  · rw [hv] at hm
    simp only [optVecLen] at hm
    omega

theorem checkMem_no_panic (machine : MachineConfiguration) :
    checkMem machine ≠ .error .indexPanic := by
  intro hcon
  unfold checkMem at hcon
  split at hcon
  · simp at hcon
  rename_i hlen
  push_neg at hlen
  obtain ⟨hc, ht⟩ := hlen
  split at hcon
  · simp at hcon
  exact checkMemElems_no_panic machine.memory_size_gb 0 (by omega) (by omega) hcon

theorem checkConfigHeader_no_panic (config : ClusterConfiguration) :
    checkConfigHeader config ≠ .error .indexPanic := by
  intro hcon
  unfold checkConfigHeader at hcon
  split at hcon
  · simp at hcon
  split at hcon
  · simp at hcon
  split at hcon
  · simp at hcon
  split at hcon <;> simp at hcon

theorem checkOptFields_no_panic (machine : MachineConfiguration) :
    checkOptFields machine ≠ .error .indexPanic := by
  intro hcon
  unfold checkOptFields at hcon
  split at hcon
  · simp at hcon
  split at hcon
  · simp at hcon
  split at hcon <;> simp at hcon

theorem checkConfig_no_panic (config : ClusterConfiguration) :
    checkConfig config ≠ .error .indexPanic := by
  intro hcon
  unfold checkConfig at hcon
  rw [seqCheck_error_iff] at hcon
  rcases hcon with h | ⟨_, hcon⟩
  · exact checkConfigHeader_no_panic config h
  rw [seqCheck_error_iff] at hcon
  rcases hcon with h | ⟨_, hcon⟩
  · exact checkGpu_no_panic config.machine h
  rw [seqCheck_error_iff] at hcon
  rcases hcon with h | ⟨_, h⟩
  · exact checkMem_no_panic config.machine h
  · exact checkOptFields_no_panic config.machine h

theorem checkConfigs_no_panic (l : List ClusterConfiguration) :
    checkConfigs l ≠ .error .indexPanic := by
  induction l with
  | nil => simp [checkConfigs]
  | cons c rest ih =>
    intro hcon
    unfold checkConfigs at hcon
    rw [seqCheck_error_iff] at hcon
    rcases hcon with h | ⟨_, h⟩
    · exact checkConfig_no_panic c h
    · exact ih h

theorem build_ne_panic (b : CreateClusterRequestBuilder) :
    b.build ≠ .error .indexPanic := by
  intro h
  unfold CreateClusterRequestBuilder.build at h
  split at h
  · simp at h
  split at h
  · simp at h
  split at h
  · simp at h
  split at h
  · simp at h
  split at h
  · simp at h
  split at h
  · simp at h
  split at h
  · simp at h
  split at h
  · simp at h
  split at h
  · simp at h
  split at h
  · simp at h
  split at h
  · rename_i e heq
    injection h with h
    subst h
    exact checkConfigs_no_panic _ heq
  · simp at h

/-- C10: `build()` is total and panic-free: no vector index used by the GPU or
memory element-validation loops is ever out of bounds, for every builder
input, because the equal-length checks run before the indexed loops. -/
theorem build_never_panics (b : CreateClusterRequestBuilder) :
    isIndexPanic b.build = false := by
  cases hb : b.build with
  | ok r => rfl
  | error e =>
    cases e with
    | err e2 => rfl
    | indexPanic => exact absurd hb (build_ne_panic b)

/-! ## C4: array-length mismatches yield `MalformedRequest` -/

/-- C4: with all checks preceding the array rules passing, a configuration
whose GPU arrays have unequal lengths (absent treated as length 0), or whose
memory arrays have unequal or zero lengths, makes `build()` fail with a
`MalformedRequest` error, regardless of which array is shorter. -/
theorem build_malformed_on_array_mismatch (b : CreateClusterRequestBuilder)
    (nick : String) (z : Nat) (cfgs pre post : List ClusterConfiguration)
    (c : ClusterConfiguration)
    (hn : b.nickname = some nick) (hn50 : rustLen nick ≤ 50)
    (hd : b.description.any (fun d => rustLen d > 200) = false)
    (hz : b.zkvm_version_id = some z) (hz0 : z ≠ 0)
    (hh : b.hardware.any (fun s => rustLen s > 200) = false)
    (hcy : b.cycle_type.any String.isEmpty = false)
    (hp : b.proof_type.any String.isEmpty = false)
    (hcfg : b.configuration = some cfgs)
    (hsplit : cfgs = pre ++ c :: post)
    (hpre : ∀ x ∈ pre, checkConfig x = .ok ())
    (hhdr : checkConfigHeader c = .ok ())
    (hbad : (optVecLen c.machine.gpu_count ≠ optVecLen c.machine.gpu_models ∨
             optVecLen c.machine.gpu_memory_gb ≠ optVecLen c.machine.gpu_models) ∨
            (checkGpu c.machine = .ok () ∧
             (c.machine.memory_count.length ≠ c.machine.memory_size_gb.length ∨
              c.machine.memory_type.length ≠ c.machine.memory_size_gb.length ∨
              c.machine.memory_size_gb.length = 0))) :
    ∃ msg, b.build = .error (.err (.MalformedRequest msg)) := by
  have hne : cfgs.isEmpty = false := by
    rw [hsplit]
    cases pre <;> simp
  have hcfgerr : ∃ msg, checkConfig c = .error (.err (.MalformedRequest msg)) := by
    rcases hbad with hgpu | ⟨hgok, hmem⟩
    · refine ⟨"gpu_models, gpu_count, and gpu_memory_gb must have the same length", ?_⟩
      have hg : checkGpu c.machine =
          .error (.err (.MalformedRequest
            "gpu_models, gpu_count, and gpu_memory_gb must have the same length")) := by
        unfold checkGpu
        rw [if_pos hgpu]
      unfold checkConfig
      rw [hhdr]
      simp [seqCheck, hg]
    · by_cases hne2 : (c.machine.memory_count.length ≠ c.machine.memory_size_gb.length ∨
        c.machine.memory_type.length ≠ c.machine.memory_size_gb.length)
      · refine ⟨"memory_size_gb, memory_count, and memory_type must have the same length", ?_⟩
        have hm : checkMem c.machine =
            .error (.err (.MalformedRequest
              "memory_size_gb, memory_count, and memory_type must have the same length")) := by
          unfold checkMem
          rw [if_pos hne2]
        unfold checkConfig
        rw [hhdr]
        simp [seqCheck, hgok, hm]
      · have hz2 : c.machine.memory_size_gb.length = 0 := by tauto
        refine ⟨"memory_size_gb, memory_count, and memory_type must not be empty", ?_⟩
        have hm : checkMem c.machine =
            .error (.err (.MalformedRequest
              "memory_size_gb, memory_count, and memory_type must not be empty")) := by
          unfold checkMem
          rw [if_neg hne2, if_pos hz2]
        unfold checkConfig
        rw [hhdr]
        simp [seqCheck, hgok, hm]
  obtain ⟨msg, hce⟩ := hcfgerr
  have hcs : checkConfigs cfgs = .error (.err (.MalformedRequest msg)) := by
    rw [hsplit, checkConfigs_append, checkConfigs_ok_iff.mpr hpre]
    simp only [seqCheck]
    unfold checkConfigs
    rw [hce]
    simp [seqCheck]
  have heval := build_eval_configs b nick z cfgs hn (by omega) hd hz hz0 hh hcy hp hcfg hne
  rw [hcs] at heval
  exact ⟨msg, heval⟩

/-- Witness for C4: a configuration with one GPU model but an absent GPU count
array makes `build()` fail with `MalformedRequest`. -/
theorem build_malformed_on_array_mismatch_witness :
    ∃ msg, CreateClusterRequestBuilder.build builderGpuBad =
      .error (.err (.MalformedRequest msg)) :=
  build_malformed_on_array_mismatch builderGpuBad "My Cluster" 1 [cfgGpuBad] [] [] cfgGpuBad
    rfl (by decide) (by rfl) rfl (by decide) (by rfl) (by rfl) (by rfl) rfl rfl
    (by intro x hx; simp at hx) (by rfl) (Or.inl (Or.inl (by decide)))
